import Mathlib

/-!
Verification of the KKM domain-switch / fault-virtualization engine
(`kkm_kontext.c`, `kkm_kontainer.c`, `kkm_idt.c`) against its
natural-language specification.  The C functions are shallowly embedded
as executable Lean definitions over `Nat` (machine `uint64_t` arithmetic
is made explicit via `% 2 ^ 64` where wrap-around can matter), and the
spec's testable properties are proved as theorems about them.
-/

/-! ## Constants from `kkm_kontext.c` (copied there from `km_mem.h`) -/

def KKM_MIB : Nat := 0x100000
def KKM_GIB : Nat := 0x40000000
def KKM_TIB : Nat := 0x10000000000

/-- bottom portion of guest address space -/
def KKM_GUEST_MEM_START_VA : Nat := 2 * KKM_MIB

def KKM_GUEST_MAX_PHYS_MEM : Nat := 512 * KKM_GIB

/-- top portion of guest address space -/
def KKM_GUEST_MEM_TOP_VA : Nat := 128 * KKM_TIB - 2 * KKM_MIB

def KKM_GUEST_VA_OFFSET : Nat :=
  KKM_GUEST_MEM_TOP_VA - (KKM_GUEST_MAX_PHYS_MEM - 2 * KKM_MIB)

/-- monitor mapping area for guest physical memory -/
def KKM_KM_USER_MEM_BASE : Nat := 0x100000000000

def KKM_KM_RSRV_VDSOSLOT : Nat := 41

def KKM_GUEST_VVAR_VDSO_BASE_VA : Nat := KKM_GUEST_MEM_TOP_VA + 1 * KKM_MIB

/-- `uint64_t` modulus -/
def U64 : Nat := 2 ^ 64

/-! ## Data model: memory slots and the kontainer-level `struct kkm` -/

/-- One guest-physical memory slot (`struct kkm_mem_slot`): validity flag
`used`, and the `mr.userspace_addr` / `mr.memory_size` fields consulted by
the translator. -/
structure kkm_mem_slot where
  used : Bool
  userspace_addr : Nat
  memory_size : Nat

/-- The part of `struct kkm` the translator reads: the memory-slot table. -/
structure kkm_struct where
  mem_slot : Nat → kkm_mem_slot

/-! ## Address translator (`kkm_guest_va_to_monitor_va`) -/

/-- Shallow embedding of `kkm_guest_va_to_monitor_va`: three disjoint
ranges checked in order (low linear window, high linear window, reserved
VDSO slot); `none` models the C function returning `false` (with
`*monitor_va` left 0 and unused by callers). -/
def kkm_guest_va_to_monitor_va (kkm : kkm_struct) (guest_va : Nat) :
    Option Nat :=
  if KKM_GUEST_MEM_START_VA ≤ guest_va ∧
      guest_va < KKM_GUEST_MAX_PHYS_MEM then
    some ((KKM_KM_USER_MEM_BASE + guest_va) % U64)
  else if KKM_GUEST_VA_OFFSET ≤ guest_va ∧
      guest_va < KKM_GUEST_MEM_TOP_VA then
    some ((KKM_KM_USER_MEM_BASE + (guest_va - KKM_GUEST_VA_OFFSET)) % U64)
  else
    if (kkm.mem_slot KKM_KM_RSRV_VDSOSLOT).used = true ∧
        KKM_GUEST_VVAR_VDSO_BASE_VA ≤ guest_va ∧
        guest_va <
          (KKM_GUEST_VVAR_VDSO_BASE_VA +
            (kkm.mem_slot KKM_KM_RSRV_VDSOSLOT).memory_size) % U64 then
      some ((guest_va - KKM_GUEST_VVAR_VDSO_BASE_VA +
        (kkm.mem_slot KKM_KM_RSRV_VDSOSLOT).userspace_addr) % U64)
    else
      none

/-! Numeric values of the derived constants, for use in proofs. -/

theorem KKM_GUEST_MEM_START_VA_val : KKM_GUEST_MEM_START_VA = 0x200000 := rfl

theorem KKM_GUEST_MAX_PHYS_MEM_val :
    KKM_GUEST_MAX_PHYS_MEM = 0x8000000000 := rfl

theorem KKM_GUEST_MEM_TOP_VA_val :
    KKM_GUEST_MEM_TOP_VA = 0x7FFFFFE00000 := rfl

theorem KKM_GUEST_VA_OFFSET_val : KKM_GUEST_VA_OFFSET = 0x7F8000000000 := rfl

theorem KKM_GUEST_VVAR_VDSO_BASE_VA_val :
    KKM_GUEST_VVAR_VDSO_BASE_VA = 0x7FFFFFF00000 := rfl

theorem KKM_KM_USER_MEM_BASE_val :
    KKM_KM_USER_MEM_BASE = 0x100000000000 := rfl

theorem U64_val : U64 = 18446744073709551616 := rfl

/-- C1: for every guest virtual address in the low window
[2 MiB, 512 GiB) the translator succeeds with `BASE + a`, and for every
address in the high window [`KKM_GUEST_VA_OFFSET`, 128 TiB − 2 MiB) it
succeeds with `BASE + (a - KKM_GUEST_VA_OFFSET)`. -/
theorem c1_translate_linear_windows (kkm : kkm_struct) (a : Nat) :
    (KKM_GUEST_MEM_START_VA ≤ a ∧ a < KKM_GUEST_MAX_PHYS_MEM →
      kkm_guest_va_to_monitor_va kkm a = some (KKM_KM_USER_MEM_BASE + a)) ∧
    (KKM_GUEST_VA_OFFSET ≤ a ∧ a < KKM_GUEST_MEM_TOP_VA →
      kkm_guest_va_to_monitor_va kkm a =
        some (KKM_KM_USER_MEM_BASE + (a - KKM_GUEST_VA_OFFSET))) := by
  simp only [kkm_guest_va_to_monitor_va, KKM_GUEST_MEM_START_VA_val,
    KKM_GUEST_MAX_PHYS_MEM_val, KKM_GUEST_MEM_TOP_VA_val,
    KKM_GUEST_VA_OFFSET_val, KKM_KM_USER_MEM_BASE_val, U64_val]
  constructor
  · intro h
    rw [if_pos h]
    simp only [Option.some.injEq]
    omega
  · intro h
    rw [if_neg (by omega), if_pos h]
    simp only [Option.some.injEq]
    omega

/-- A concrete slot table with every slot unused, for witnesses. -/
def emptySlots : kkm_struct := ⟨fun _ => ⟨false, 0, 0⟩⟩

/-- Witness for C1 at a concrete address in each window. -/
theorem c1_translate_linear_windows_witness :
    kkm_guest_va_to_monitor_va emptySlots 0x200000 =
        some (KKM_KM_USER_MEM_BASE + 0x200000) ∧
    kkm_guest_va_to_monitor_va emptySlots 0x7F8000000000 =
        some (KKM_KM_USER_MEM_BASE + (0x7F8000000000 - KKM_GUEST_VA_OFFSET)) :=
  ⟨(c1_translate_linear_windows emptySlots 0x200000).1 (by decide),
   (c1_translate_linear_windows emptySlots 0x7F8000000000).2 (by decide)⟩

/-! ## Constants for the fault emulators

Values from the Linux/x86 headers the module includes (`asm/traps.h`,
`asm/trap_pf.h`, `uapi/asm-generic/errno*.h`, `asm/processor-flags.h`). -/

/-- x86 vector number of the general-protection fault (`X86_TRAP_GP`). -/
def X86_TRAP_GP : Nat := 13

/-- x86 vector number of the page fault (`X86_TRAP_PF`). -/
def X86_TRAP_PF : Nat := 14

/-- page-fault error-code bit: fault was caused by a write access. -/
def X86_PF_WRITE : Nat := 2

/-- page-fault error-code bit: fault originated in user mode. -/
def X86_PF_USER : Nat := 4

/-- Linux `EFAULT` errno. -/
def EFAULT : Int := 14

/-- Linux `EOPNOTSUPP` errno. -/
def EOPNOTSUPP : Int := 95

def PAGE_SIZE : Nat := 4096

/-- Modelled from the spec: `KKM_KONTEXT_FAULT_PROCESS_DONE` is declared in
`kkm_kontext.h`, which is not among the provided sources.  The spec calls it
the guest-resumable dispatcher outcome, distinct from "done" (0) and from
the negative failure codes, so it is modelled as a distinguished positive
code. -/
def KKM_KONTEXT_FAULT_PROCESS_DONE : Int := 1

/-- Modelled from the spec: the `kkm_run` exit-reason and I/O-direction
codes are declared in `kkm_run.h`, which is not among the provided sources.
The spec only requires "unknown" and "I/O" reasons and an "out" direction
to be distinguishable; values follow the KVM-compatible run-record ABI. -/
def KKM_EXIT_UNKNOWN : Nat := 0

/-- Modelled from the spec: I/O exit reason (see `KKM_EXIT_UNKNOWN`). -/
def KKM_EXIT_IO : Nat := 2

/-- Modelled from the spec: I/O direction "out" (see `KKM_EXIT_UNKNOWN`). -/
def KKM_EXIT_IO_OUT : Nat := 1

/-- Modelled from the spec: `KKM_OUT_OPCODE` is declared in a header not
among the provided sources.  The spec describes it as the single-byte
encoding of the blocked 4-byte port-write (`out %eax, (%dx)`), which is
0xEF; no claim depends on the numeric value. -/
def KKM_OUT_OPCODE : Nat := 0xEF

/-! ## Page-fault emulator (`kkm_process_page_fault`) -/

/-- One single-byte guest-memory probe issued through
`copy_from_user` / `copy_to_user` at a monitor virtual address. -/
inductive ProbeOp where
  | read (addr : Nat)
  | write (addr : Nat)
deriving DecidableEq, Repr

/-- Outcome oracle for the host's fault-in of a probed byte: whether the
`copy_from_user` / `copy_to_user` at a given monitor address succeeds
(the host kernel resolved the fault) or fails. -/
structure ProbeOracle where
  readOk : Nat → Bool
  writeOk : Nat → Bool

/-- Shallow embedding of `kkm_process_page_fault`.  Inputs are the fields
the C function reads (`ga->trap_info.error`, `ga->sregs.cr2`) plus the
probe oracle; the result is the returned status together with the list of
single-byte probes performed, in order. -/
def kkm_process_page_fault (kkm : kkm_struct) (error_code cr2 : Nat)
    (oracle : ProbeOracle) : Int × List ProbeOp :=
  match kkm_guest_va_to_monitor_va kkm cr2 with
  | none => (-EFAULT, [])
  | some monitor_fault_address =>
    if error_code &&& X86_PF_USER = X86_PF_USER then
      if oracle.readOk monitor_fault_address then
        if error_code &&& X86_PF_WRITE = X86_PF_WRITE then
          if oracle.writeOk monitor_fault_address then
            (KKM_KONTEXT_FAULT_PROCESS_DONE,
              [ProbeOp.read monitor_fault_address,
               ProbeOp.write monitor_fault_address])
          else
            (-EFAULT,
              [ProbeOp.read monitor_fault_address,
               ProbeOp.write monitor_fault_address])
        else
          (KKM_KONTEXT_FAULT_PROCESS_DONE,
            [ProbeOp.read monitor_fault_address])
      else
        (-EFAULT, [ProbeOp.read monitor_fault_address])
    else
      (0, [])

/-! ## Protected-mode fault emulator (`kkm_process_general_protection`) -/

/-- The I/O part of the `kkm_run` exit record. -/
structure kkm_run_io where
  direction : Nat
  size : Nat
  port : Nat
  count : Nat
  data_offset : Nat
deriving DecidableEq, Repr

/-- The part of the shared `kkm_run` record this module writes. -/
structure kkm_run_state where
  exit_reason : Nat
  io : kkm_run_io
deriving DecidableEq, Repr

/-- Result of `kkm_process_general_protection`: returned status, the
`kkm_run` record, the first 32-bit word of the shared data page
(`mmap_area[1]`), and the guest instruction pointer. -/
structure GPResult where
  ret : Int
  run : kkm_run_state
  data0 : Nat
  rip : Nat
deriving DecidableEq, Repr

/-- Shallow embedding of `kkm_process_general_protection`.  `mem` models
guest memory as read through `copy_from_user` at monitor virtual
addresses (`none` = the one-byte fetch faults).  `rip`, `rdx`, `rax` are
the saved guest registers; `run0` and `data0` the incoming `kkm_run`
record and data-page word. -/
def kkm_process_general_protection (kkm : kkm_struct)
    (mem : Nat → Option Nat) (rip rdx rax : Nat) (run0 : kkm_run_state)
    (data0 : Nat) : GPResult :=
  match kkm_guest_va_to_monitor_va kkm rip with
  | none => ⟨-EFAULT, run0, data0, rip⟩
  | some monitor_fault_address =>
    match mem monitor_fault_address with
    | none => ⟨-EFAULT, run0, data0, rip⟩
    | some byte =>
      if byte = KKM_OUT_OPCODE then
        ⟨0,
         ⟨ KKM_EXIT_IO,
          ⟨KKM_EXIT_IO_OUT, 4, rdx &&& 0xFFFF, 1, PAGE_SIZE⟩⟩,
         rax % 2 ^ 32,
         (rip + 1) % U64⟩
      else
        ⟨0, run0, data0, rip⟩

/-! ## Fault dispatcher (`kkm_process_intr`) -/

/-- Result of `kkm_process_intr`: returned status, final `kkm_run` record,
data-page word, guest `rip`, and the probes performed by the page-fault
path. -/
structure IntrResult where
  ret : Int
  run : kkm_run_state
  data0 : Nat
  rip : Nat
  probes : List ProbeOp
deriving DecidableEq, Repr

/-- Shallow embedding of `kkm_process_intr`: sets the exit reason to
`KKM_EXIT_UNKNOWN`, then dispatches on the trapped vector
(`ga->kkm_intr_no`), returning `-EOPNOTSUPP` for every vector other than
general-protection and page-fault. -/
def kkm_process_intr (kkm : kkm_struct) (intr_no : Nat)
    (mem : Nat → Option Nat) (oracle : ProbeOracle)
    (error_code cr2 rip rdx rax : Nat) (run0 : kkm_run_state)
    (data0 : Nat) : IntrResult :=
  let run1 : kkm_run_state := { run0 with exit_reason := KKM_EXIT_UNKNOWN }
  if intr_no = X86_TRAP_GP then
    let r := kkm_process_general_protection kkm mem rip rdx rax run1 data0
    ⟨r.ret, r.run, r.data0, r.rip, []⟩
  else if intr_no = X86_TRAP_PF then
    let r := kkm_process_page_fault kkm error_code cr2 oracle
    ⟨r.1, run1, data0, rip, r.2⟩
  else
    ⟨-EOPNOTSUPP, run1, data0, rip, []⟩

/-- A probe oracle whose reads and writes always succeed. -/
def allOk : ProbeOracle := ⟨fun _ => true, fun _ => true⟩

/-- C2: for a page fault at a translatable address with the USER
error-code bit set, a clear WRITE bit yields exactly the one-byte read
probe and the guest-resumable outcome; a set WRITE bit yields the read
followed by the write-back and the guest-resumable outcome; a
supervisor-mode fault (USER bit clear) yields no probe and outcome 0. -/
theorem c2_page_fault_probe_policy (kkm : kkm_struct)
    (error_code cr2 mva : Nat) (oracle : ProbeOracle)
    (htr : kkm_guest_va_to_monitor_va kkm cr2 = some mva)
    (hread : oracle.readOk mva = true)
    (hwrite : oracle.writeOk mva = true) :
    (error_code &&& X86_PF_USER = X86_PF_USER →
      (error_code &&& X86_PF_WRITE = 0 →
        kkm_process_page_fault kkm error_code cr2 oracle =
          (KKM_KONTEXT_FAULT_PROCESS_DONE, [ProbeOp.read mva])) ∧
      (error_code &&& X86_PF_WRITE = X86_PF_WRITE →
        kkm_process_page_fault kkm error_code cr2 oracle =
          (KKM_KONTEXT_FAULT_PROCESS_DONE,
            [ProbeOp.read mva, ProbeOp.write mva]))) ∧
    (error_code &&& X86_PF_USER = 0 →
      kkm_process_page_fault kkm error_code cr2 oracle = (0, [])) := by
  refine ⟨fun hu => ⟨fun hw => ?_, fun hw => ?_⟩, fun hu => ?_⟩
  · have hw' : ¬(error_code &&& X86_PF_WRITE = X86_PF_WRITE) := by
      rw [hw]; decide
    simp [kkm_process_page_fault, htr, hu, hw', hread]
  · simp [kkm_process_page_fault, htr, hu, hw, hread, hwrite]
  · have hu' : ¬(error_code &&& X86_PF_USER = X86_PF_USER) := by
      rw [hu]; decide
    simp [kkm_process_page_fault, htr, hu']

/-- Witness for C2: concrete page faults at guest address 2 MiB with
error codes USER (4), USER|WRITE (6) and supervisor (0). -/
theorem c2_page_fault_probe_policy_witness :
    kkm_process_page_fault emptySlots 4 0x200000 allOk =
      (KKM_KONTEXT_FAULT_PROCESS_DONE, [ProbeOp.read 0x100000200000]) ∧
    kkm_process_page_fault emptySlots 6 0x200000 allOk =
      (KKM_KONTEXT_FAULT_PROCESS_DONE,
        [ProbeOp.read 0x100000200000, ProbeOp.write 0x100000200000]) ∧
    kkm_process_page_fault emptySlots 0 0x200000 allOk = (0, []) :=
  ⟨((c2_page_fault_probe_policy emptySlots 4 0x200000 0x100000200000 allOk
      (by decide) rfl rfl).1 (by decide)).1 (by decide),
   ((c2_page_fault_probe_policy emptySlots 6 0x200000 0x100000200000 allOk
      (by decide) rfl rfl).1 (by decide)).2 (by decide),
   (c2_page_fault_probe_policy emptySlots 0 0x200000 0x100000200000 allOk
      (by decide) rfl rfl).2 (by decide)⟩

/-- Any guest address the translator accepts is strictly below
2^64 − 1, so the 1-byte instruction-pointer advance cannot wrap. -/
theorem translate_some_succ_lt (kkm : kkm_struct) (a m : Nat)
    (h : kkm_guest_va_to_monitor_va kkm a = some m) : a + 1 < U64 := by
  unfold kkm_guest_va_to_monitor_va at h
  rw [KKM_GUEST_MEM_START_VA_val, KKM_GUEST_MAX_PHYS_MEM_val,
    KKM_GUEST_MEM_TOP_VA_val, KKM_GUEST_VA_OFFSET_val,
    KKM_GUEST_VVAR_VDSO_BASE_VA_val, U64_val] at h
  rw [U64_val]
  split_ifs at h with h1 h2 h3
  · omega
  · omega
  · obtain ⟨-, -, h3⟩ := h3
    omega

/-- C3: fetching the recognized single-byte `out` opcode at the
translated faulting instruction pointer, with guest `rax = 0x1234` and
`rdx = 0x03F8`, stages an I/O exit record (reason IO, direction out,
size 4, port 0x03F8, count 1, data offset `PAGE_SIZE`), writes
0x00001234 as the first 32-bit word of the shared data page, and
advances the guest instruction pointer by exactly 1. -/
theorem c3_out_instruction_exit (kkm : kkm_struct) (mem : Nat → Option Nat)
    (rip mva : Nat) (run0 : kkm_run_state) (data0 : Nat)
    (htr : kkm_guest_va_to_monitor_va kkm rip = some mva)
    (hmem : mem mva = some KKM_OUT_OPCODE) :
    kkm_process_general_protection kkm mem rip 0x03F8 0x1234 run0 data0 =
      ⟨0, ⟨ KKM_EXIT_IO, ⟨KKM_EXIT_IO_OUT, 4, 0x03F8, 1, PAGE_SIZE⟩⟩,
        0x00001234, rip + 1⟩ := by
  have hlt : rip + 1 < U64 := translate_some_succ_lt kkm rip mva htr
  have h1 : (0x03F8 : Nat) &&& 0xFFFF = 0x03F8 := by decide
  have h2 : (0x1234 : Nat) % 2 ^ 32 = 0x1234 := by decide
  have h3 : (rip + 1) % U64 = rip + 1 := Nat.mod_eq_of_lt hlt
  simp only [kkm_process_general_protection, htr, hmem, h1, h2, h3, if_true]

/-- Witness for C3 at faulting instruction pointer 2 MiB with the opcode
byte present at its translation. -/
theorem c3_out_instruction_exit_witness :
    kkm_process_general_protection emptySlots (fun _ => some KKM_OUT_OPCODE)
        0x200000 0x03F8 0x1234 ⟨KKM_EXIT_UNKNOWN, ⟨0, 0, 0, 0, 0⟩⟩ 0 =
      ⟨0, ⟨ KKM_EXIT_IO, ⟨KKM_EXIT_IO_OUT, 4, 0x03F8, 1, PAGE_SIZE⟩⟩,
        0x00001234, 0x200000 + 1⟩ :=
  c3_out_instruction_exit emptySlots (fun _ => some KKM_OUT_OPCODE)
    0x200000 0x100000200000 ⟨KKM_EXIT_UNKNOWN, ⟨0, 0, 0, 0, 0⟩⟩ 0
    (by decide) rfl

/-- C4: for every trapped vector other than general-protection (13) and
page-fault (14), the dispatcher returns `-EOPNOTSUPP`, which is negative
and is not the guest-resumable outcome. -/
theorem c4_unsupported_vector (kkm : kkm_struct) (intr_no : Nat)
    (mem : Nat → Option Nat) (oracle : ProbeOracle)
    (error_code cr2 rip rdx rax : Nat) (run0 : kkm_run_state) (data0 : Nat)
    (hgp : intr_no ≠ X86_TRAP_GP) (hpf : intr_no ≠ X86_TRAP_PF) :
    (kkm_process_intr kkm intr_no mem oracle error_code cr2 rip rdx rax
        run0 data0).ret = -EOPNOTSUPP ∧
    (kkm_process_intr kkm intr_no mem oracle error_code cr2 rip rdx rax
        run0 data0).ret < 0 ∧
    (kkm_process_intr kkm intr_no mem oracle error_code cr2 rip rdx rax
        run0 data0).ret ≠ KKM_KONTEXT_FAULT_PROCESS_DONE := by
  simp [kkm_process_intr, hgp, hpf, EOPNOTSUPP,
    KKM_KONTEXT_FAULT_PROCESS_DONE]

/-- Witness for C4 at the divide-error vector 0. -/
theorem c4_unsupported_vector_witness :
    (kkm_process_intr emptySlots 0 (fun _ => none) allOk 0 0 0 0 0
        ⟨KKM_EXIT_UNKNOWN, ⟨0, 0, 0, 0, 0⟩⟩ 0).ret = -EOPNOTSUPP ∧
    (kkm_process_intr emptySlots 0 (fun _ => none) allOk 0 0 0 0 0
        ⟨KKM_EXIT_UNKNOWN, ⟨0, 0, 0, 0, 0⟩⟩ 0).ret < 0 ∧
    (kkm_process_intr emptySlots 0 (fun _ => none) allOk 0 0 0 0 0
        ⟨KKM_EXIT_UNKNOWN, ⟨0, 0, 0, 0, 0⟩⟩ 0).ret ≠
      KKM_KONTEXT_FAULT_PROCESS_DONE :=
  c4_unsupported_vector emptySlots 0 (fun _ => none) allOk 0 0 0 0 0
    ⟨KKM_EXIT_UNKNOWN, ⟨0, 0, 0, 0, 0⟩⟩ 0 (by decide) (by decide)

/-- C5: with the reserved VDSO slot (index 41) marked valid with host
base `b` and size `s`, any address in
[`KKM_GUEST_VVAR_VDSO_BASE_VA`, `KKM_GUEST_VVAR_VDSO_BASE_VA` + s)
translates to `b + (a - KKM_GUEST_VVAR_VDSO_BASE_VA)`; with the slot
marked invalid, translation of any such address fails.  (The two no-wrap
side conditions reflect that slot size and host base are well-formed
`uint64` quantities whose sums do not wrap.) -/
theorem c5_vdso_slot_translation (kkm : kkm_struct) (a : Nat)
    (hlo : KKM_GUEST_VVAR_VDSO_BASE_VA ≤ a)
    (hhi : a < KKM_GUEST_VVAR_VDSO_BASE_VA +
      (kkm.mem_slot KKM_KM_RSRV_VDSOSLOT).memory_size)
    (hs : KKM_GUEST_VVAR_VDSO_BASE_VA +
      (kkm.mem_slot KKM_KM_RSRV_VDSOSLOT).memory_size < U64)
    (hb : (kkm.mem_slot KKM_KM_RSRV_VDSOSLOT).userspace_addr +
      (a - KKM_GUEST_VVAR_VDSO_BASE_VA) < U64) :
    ((kkm.mem_slot KKM_KM_RSRV_VDSOSLOT).used = true →
      kkm_guest_va_to_monitor_va kkm a =
        some ((kkm.mem_slot KKM_KM_RSRV_VDSOSLOT).userspace_addr +
          (a - KKM_GUEST_VVAR_VDSO_BASE_VA))) ∧
    ((kkm.mem_slot KKM_KM_RSRV_VDSOSLOT).used = false →
      kkm_guest_va_to_monitor_va kkm a = none) := by
  rw [KKM_GUEST_VVAR_VDSO_BASE_VA_val] at hlo hhi hs hb
  rw [U64_val] at hs hb
  constructor
  · intro hused
    unfold kkm_guest_va_to_monitor_va
    rw [KKM_GUEST_MEM_START_VA_val, KKM_GUEST_MAX_PHYS_MEM_val,
      KKM_GUEST_MEM_TOP_VA_val, KKM_GUEST_VA_OFFSET_val,
      KKM_GUEST_VVAR_VDSO_BASE_VA_val, U64_val]
    rw [if_neg (by omega), if_neg (by omega),
      if_pos ⟨hused, by omega, by omega⟩]
    simp only [Option.some.injEq]
    omega
  · intro hunused
    unfold kkm_guest_va_to_monitor_va
    rw [KKM_GUEST_MEM_START_VA_val, KKM_GUEST_MAX_PHYS_MEM_val,
      KKM_GUEST_MEM_TOP_VA_val, KKM_GUEST_VA_OFFSET_val,
      KKM_GUEST_VVAR_VDSO_BASE_VA_val, U64_val]
    rw [if_neg (by omega), if_neg (by omega),
      if_neg (by rw [hunused]; simp)]

/-- A concrete slot table for C5 witnesses: slot 41 valid, host base
0x7F0000000000, size one page. -/
def vdsoSlots (used : Bool) : kkm_struct :=
  ⟨fun i => if i = KKM_KM_RSRV_VDSOSLOT then
    ⟨used, 0x7F0000000000, 0x1000⟩ else ⟨false, 0, 0⟩⟩

/-- Witness for C5 at a concrete in-range address with the slot valid
and with the slot invalid. -/
theorem c5_vdso_slot_translation_witness :
    kkm_guest_va_to_monitor_va (vdsoSlots true) 0x7FFFFFF00010 =
      some (0x7F0000000000 + (0x7FFFFFF00010 - KKM_GUEST_VVAR_VDSO_BASE_VA)) ∧
    kkm_guest_va_to_monitor_va (vdsoSlots false) 0x7FFFFFF00010 = none :=
  ⟨(c5_vdso_slot_translation (vdsoSlots true) 0x7FFFFFF00010
      (by decide) (by decide) (by decide) (by decide)).1 (by decide),
   (c5_vdso_slot_translation (vdsoSlots false) 0x7FFFFFF00010
      (by decide) (by decide) (by decide) (by decide)).2 (by decide)⟩

/-- C6: for any address outside all three recognized ranges the
translator fails deterministically with `none`; both callers then treat
the failure as an error for the current trap, returning `-EFAULT` with
no probe performed, no exit record staged, and no register change. -/
theorem c6_translation_failure_is_error (kkm : kkm_struct) (a : Nat)
    (mem : Nat → Option Nat) (oracle : ProbeOracle)
    (error_code rdx rax : Nat) (run0 : kkm_run_state) (data0 : Nat)
    (h1 : ¬(KKM_GUEST_MEM_START_VA ≤ a ∧ a < KKM_GUEST_MAX_PHYS_MEM))
    (h2 : ¬(KKM_GUEST_VA_OFFSET ≤ a ∧ a < KKM_GUEST_MEM_TOP_VA))
    (h3 : ¬((kkm.mem_slot KKM_KM_RSRV_VDSOSLOT).used = true ∧
      KKM_GUEST_VVAR_VDSO_BASE_VA ≤ a ∧
      a < (KKM_GUEST_VVAR_VDSO_BASE_VA +
        (kkm.mem_slot KKM_KM_RSRV_VDSOSLOT).memory_size) % U64)) :
    kkm_guest_va_to_monitor_va kkm a = none ∧
    kkm_process_page_fault kkm error_code a oracle = (-EFAULT, []) ∧
    kkm_process_general_protection kkm mem a rdx rax run0 data0 =
      ⟨-EFAULT, run0, data0, a⟩ := by
  have htr : kkm_guest_va_to_monitor_va kkm a = none := by
    unfold kkm_guest_va_to_monitor_va
    rw [if_neg h1, if_neg h2, if_neg h3]
  refine ⟨htr, ?_, ?_⟩
  · simp [kkm_process_page_fault, htr]
  · simp [kkm_process_general_protection, htr]

/-- Witness for C6 at address 0 (below the low window, outside all
ranges even with a valid VDSO slot installed). -/
theorem c6_translation_failure_is_error_witness :
    kkm_guest_va_to_monitor_va (vdsoSlots true) 0 = none ∧
    kkm_process_page_fault (vdsoSlots true) 4 0 allOk = (-EFAULT, []) ∧
    kkm_process_general_protection (vdsoSlots true) (fun _ => some 0x90)
        0 0 0 ⟨KKM_EXIT_UNKNOWN, ⟨0, 0, 0, 0, 0⟩⟩ 0 =
      ⟨-EFAULT, ⟨KKM_EXIT_UNKNOWN, ⟨0, 0, 0, 0, 0⟩⟩, 0, 0⟩ :=
  c6_translation_failure_is_error (vdsoSlots true) 0 (fun _ => some 0x90)
    allOk 4 0 0 ⟨KKM_EXIT_UNKNOWN, ⟨0, 0, 0, 0, 0⟩⟩ 0
    (by decide) (by decide) (by decide)

/-- C7 counterexample: with the fetched byte 0x90 (not the `out`
opcode) at a translatable faulting instruction pointer, the emulator
returns 0, not an error status — the claim that an instruction-decode
mismatch aborts the kontext with an error status is false on the code. -/
theorem c7_counterexample_mismatch_returns_zero :
    (kkm_process_general_protection emptySlots (fun _ => some 0x90)
        0x200000 0 0 ⟨KKM_EXIT_UNKNOWN, ⟨0, 0, 0, 0, 0⟩⟩ 0).ret = 0 ∧
    ¬((kkm_process_general_protection emptySlots (fun _ => some 0x90)
        0x200000 0 0 ⟨KKM_EXIT_UNKNOWN, ⟨0, 0, 0, 0, 0⟩⟩ 0).ret < 0) := by
  decide

/-- C7 amended: on an instruction-decode mismatch the emulator leaves
the fault unresolved rather than aborting: it returns 0 ("done") and
leaves the exit record, the shared data page and the guest instruction
pointer unchanged. -/
theorem c7_amended_mismatch_unresolved (kkm : kkm_struct)
    (mem : Nat → Option Nat) (rip mva rdx rax byte : Nat)
    (run0 : kkm_run_state) (data0 : Nat)
    (htr : kkm_guest_va_to_monitor_va kkm rip = some mva)
    (hmem : mem mva = some byte) (hne : byte ≠ KKM_OUT_OPCODE) :
    kkm_process_general_protection kkm mem rip rdx rax run0 data0 =
      ⟨0, run0, data0, rip⟩ := by
  simp [kkm_process_general_protection, htr, hmem, hne]

/-- Witness for the amended C7 at a concrete mismatching byte. -/
theorem c7_amended_mismatch_unresolved_witness :
    kkm_process_general_protection emptySlots (fun _ => some 0x90)
        0x200000 0 0 ⟨KKM_EXIT_UNKNOWN, ⟨0, 0, 0, 0, 0⟩⟩ 0 =
      ⟨0, ⟨KKM_EXIT_UNKNOWN, ⟨0, 0, 0, 0, 0⟩⟩, 0, 0x200000⟩ :=
  c7_amended_mismatch_unresolved emptySlots (fun _ => some 0x90)
    0x200000 0x100000200000 0 0 0x90 ⟨KKM_EXIT_UNKNOWN, ⟨0, 0, 0, 0, 0⟩⟩ 0
    (by decide) rfl (by decide)

/-! ## Guest-payload entry (`kkm_guest_kernel_start_payload`)

Only the guest-area state transformation performed before
`kkm_switch_to_gp_asm` is modelled: the forced payload selectors and the
saved-rflags policy.  Hardware effects (segment loads, MSR writes, IDT
and TSS installation) are external to the shallow embedding. -/

/-- Linux x86-64 user code-segment selector. -/
def __USER_CS : Nat := 0x33

/-- Linux x86-64 user data-segment selector. -/
def __USER_DS : Nat := 0x2B

/-- rflags interrupt-enable bit. -/
def X86_EFLAGS_IF : Nat := 0x200

/-- rflags I/O-privilege-level field (bits 12 and 13). -/
def X86_EFLAGS_IOPL : Nat := 0x3000

/-- rflags resume flag. -/
def X86_EFLAGS_RF : Nat := 0x10000

/-- 64-bit bitwise complement (C `~` on `uint64_t`). -/
def notU64 (x : Nat) : Nat := (U64 - 1) ^^^ x

/-- Guest-area fields mutated by the payload-entry path. -/
structure PayloadEntryState where
  guest_payload_cs : Nat
  guest_payload_ss : Nat
  rflags : Nat
deriving DecidableEq, Repr

/-- Shallow embedding of the guest-area mutations of
`kkm_guest_kernel_start_payload`: the caller-suggested `cs`/`ss` are
overwritten with the fixed user selectors; the saved rflags get the
interrupt-enable flag cleared unconditionally (the branch that would
propagate a guest-enabled IF is commented out in the source), the IOPL
field cleared, and the resume flag set. -/
def kkm_guest_kernel_start_payload (s : PayloadEntryState) :
    PayloadEntryState :=
  let cs := __USER_CS
  let ss := __USER_DS
  let rflags := s.rflags &&& notU64 X86_EFLAGS_IF
  let rflags := if rflags &&& X86_EFLAGS_IOPL ≠ 0 then
    rflags &&& notU64 X86_EFLAGS_IOPL else rflags
  let rflags := if rflags &&& X86_EFLAGS_RF = 0 then
    rflags ||| X86_EFLAGS_RF else rflags
  ⟨cs, ss, rflags⟩

/-- Masking with a 64-bit complement clears every bit of the mask. -/
theorem land_notU64_land_self (x y : Nat) (hy : y < U64) :
    (x &&& notU64 y) &&& y = 0 := by
  apply Nat.eq_of_testBit_eq
  intro i
  simp only [Nat.testBit_land, notU64, Nat.testBit_xor, Nat.zero_testBit,
    U64, Nat.testBit_two_pow_sub_one 64 i]
  by_cases hi : i < 64
  · by_cases hb : y.testBit i = true
    · simp [hi, hb]
    · simp [hb]
  · have hb : y.testBit i = false := by
      refine Nat.testBit_eq_false_of_lt (Nat.lt_of_lt_of_le hy ?_)
      exact Nat.pow_le_pow_right (by norm_num) (by omega)
    simp [hb]

/-- A bit pattern disjoint from `y` stays disjoint after masking. -/
theorem land_land_zero (x y z : Nat) (h : x &&& y = 0) :
    (x &&& z) &&& y = 0 := by
  apply Nat.eq_of_testBit_eq
  intro i
  have hi := congrArg (fun t => t.testBit i) h
  simp only [Nat.testBit_land, Nat.zero_testBit] at hi ⊢
  cases hx : x.testBit i <;> cases hy : y.testBit i <;> simp_all

/-- Disjointness from `y` is preserved by or-ing in bits disjoint
from `y`. -/
theorem lor_land_zero (x z y : Nat) (h1 : x &&& y = 0) (h2 : z &&& y = 0) :
    (x ||| z) &&& y = 0 := by
  apply Nat.eq_of_testBit_eq
  intro i
  have hi1 := congrArg (fun t => t.testBit i) h1
  have hi2 := congrArg (fun t => t.testBit i) h2
  simp only [Nat.testBit_land, Nat.testBit_lor, Nat.zero_testBit] at hi1 hi2 ⊢
  cases hx : x.testBit i <;> cases hz : z.testBit i <;>
    cases hy : y.testBit i <;> simp_all

/-- Or-ing a mask in sets every bit of the mask. -/
theorem lor_land_self (x y : Nat) : (x ||| y) &&& y = y := by
  apply Nat.eq_of_testBit_eq
  intro i
  simp only [Nat.testBit_land, Nat.testBit_lor]
  cases y.testBit i <;> simp

/-- A power-of-two mask that is not absent is fully present. -/
theorem land_two_pow_of_ne_zero (x n : Nat) (h : x &&& 2 ^ n ≠ 0) :
    x &&& 2 ^ n = 2 ^ n := by
  rw [Nat.and_two_pow] at h ⊢
  cases hb : x.testBit n
  · rw [hb] at h
    simp at h
  · simp

/-- C8: the payload-entry path forces the payload code and stack
selectors to the fixed user-mode selectors regardless of the incoming
values, and leaves the saved guest rflags with the interrupt-enable
flag cleared, the I/O-privilege-level field zero, and the resume flag
set. -/
theorem c8_payload_entry_forces_state (s : PayloadEntryState) :
    (kkm_guest_kernel_start_payload s).guest_payload_cs = __USER_CS ∧
    (kkm_guest_kernel_start_payload s).guest_payload_ss = __USER_DS ∧
    (kkm_guest_kernel_start_payload s).rflags &&& X86_EFLAGS_IF = 0 ∧
    (kkm_guest_kernel_start_payload s).rflags &&& X86_EFLAGS_IOPL = 0 ∧
    (kkm_guest_kernel_start_payload s).rflags &&& X86_EFLAGS_RF =
      X86_EFLAGS_RF := by
  have hIF : X86_EFLAGS_IF < U64 := by rw [U64_val]; norm_num [X86_EFLAGS_IF]
  have hIOPL : X86_EFLAGS_IOPL < U64 := by
    rw [U64_val]; norm_num [X86_EFLAGS_IOPL]
  have hRFpow : X86_EFLAGS_RF = 2 ^ 16 := by norm_num [X86_EFLAGS_RF]
  have hRFIF : X86_EFLAGS_RF &&& X86_EFLAGS_IF = 0 := by decide
  have hRFIOPL : X86_EFLAGS_RF &&& X86_EFLAGS_IOPL = 0 := by decide
  unfold kkm_guest_kernel_start_payload
  set r1 := s.rflags &&& notU64 X86_EFLAGS_IF with hr1
  have h1IF : r1 &&& X86_EFLAGS_IF = 0 := land_notU64_land_self _ _ hIF
  refine ⟨rfl, rfl, ?_⟩
  dsimp only
  split_ifs with hiopl hrf hrf
  all_goals refine ⟨?_, ?_, ?_⟩
  · exact lor_land_zero _ _ _ (land_land_zero _ _ _ h1IF) hRFIF
  · exact lor_land_zero _ _ _ (land_notU64_land_self _ _ hIOPL) hRFIOPL
  · exact lor_land_self _ _
  · exact land_land_zero _ _ _ h1IF
  · exact land_notU64_land_self _ _ hIOPL
  · rw [hRFpow] at hrf ⊢
    exact land_two_pow_of_ne_zero _ _ hrf
  · exact lor_land_zero _ _ _ h1IF hRFIF
  · exact lor_land_zero _ _ _ (not_ne_iff.mp hiopl) hRFIOPL
  · exact lor_land_self _ _
  · exact h1IF
  · exact not_ne_iff.mp hiopl
  · rw [hRFpow] at hrf ⊢
    exact land_two_pow_of_ne_zero _ _ hrf

/-! ## Kontainer and kontext initialization (`kkm_kontainer.c`,
`kkm_kontext.c`)

Page allocation is performed by `kkm_mm_allocate_page(s)` from
`kkm_mm.c`, which is not among the provided sources.  Modelled from the
spec: allocation either succeeds, returning 0 and setting the caller's
page-pointer and virtual-address fields, or fails with a nonzero error
leaving them untouched ("resource-exhaustion ... surfaced to the
caller").  An allocation outcome is an `Option Nat` carrying an abstract
nonzero page id used as both the page pointer and the address; `free_page`
is tracked as a list of freed ids. -/

/-- Linux `ENOMEM` errno (the allocation-failure code surfaced). -/
def ENOMEM : Int := 12

/-- The fields of `struct kkm` written by `kkm_kontainer_init` and reset
by `kkm_kontainer_cleanup` (page pointers as `Option`, addresses with 0
for NULL). -/
structure kkm_kontainer_state where
  guest_kernel_page : Option Nat
  guest_kernel : Nat
  guest_payload_page : Option Nat
  guest_payload : Nat
  idt_page : Option Nat
  idt : Nat
deriving DecidableEq, Repr

/-- Shallow embedding of `kkm_kontainer_cleanup`: frees each page whose
page pointer is non-NULL and resets the pair of fields; returns the new
state and the list of freed ids. -/
def kkm_kontainer_cleanup (s : kkm_kontainer_state) :
    kkm_kontainer_state × List Nat :=
  let f1 : List Nat :=
    if s.guest_kernel_page ≠ none then [s.guest_kernel] else []
  let s1 := if s.guest_kernel_page ≠ none then
    { s with guest_kernel_page := none, guest_kernel := 0 } else s
  let f2 : List Nat :=
    if s1.guest_payload_page ≠ none then [s1.guest_payload] else []
  let s2 := if s1.guest_payload_page ≠ none then
    { s1 with guest_payload_page := none, guest_payload := 0 } else s1
  let f3 : List Nat := if s2.idt_page ≠ none then [s2.idt] else []
  let s3 := if s2.idt_page ≠ none then
    { s2 with idt_page := none, idt := 0 } else s2
  (s3, f1 ++ f2 ++ f3)

/-- Shallow embedding of `kkm_kontainer_init`: three page allocations in
order (guest-kernel page table, guest-payload page table, guest IDT
page); on the first failure the partial state is rolled back through
`kkm_kontainer_cleanup`.  (On full success the C function also fills the
256 IDT gates in the allocated idt page; the gate contents are modelled
with `kkm_idt_descr_init_gate` below and do not affect the
error paths.)  Result: returned status, final state, ids allocated, ids
freed. -/
def kkm_kontainer_init (s0 : kkm_kontainer_state) (a1 a2 a3 : Option Nat) :
    Int × kkm_kontainer_state × List Nat × List Nat :=
  match a1 with
  | none =>
    let c := kkm_kontainer_cleanup s0
    (-ENOMEM, c.1, [], c.2)
  | some p1 =>
    let s1 := { s0 with guest_kernel_page := some p1, guest_kernel := p1 }
    match a2 with
    | none =>
      let c := kkm_kontainer_cleanup s1
      (-ENOMEM, c.1, [p1], c.2)
    | some p2 =>
      let s2 :=
        { s1 with guest_payload_page := some p2, guest_payload := p2 }
      match a3 with
      | none =>
        let c := kkm_kontainer_cleanup s2
        (-ENOMEM, c.1, [p1, p2], c.2)
      | some p3 =>
        (0, { s2 with idt_page := some p3, idt := p3 }, [p1, p2, p3], [])

/-- The fields of `struct kkm_kontext` written by `kkm_kontext_init` and
reset by `kkm_kontext_cleanup`. -/
structure kkm_kontext_state where
  guest_area_page : Option Nat
  guest_area : Nat
deriving DecidableEq, Repr

/-- Shallow embedding of `kkm_kontext_cleanup`. -/
def kkm_kontext_cleanup (s : kkm_kontext_state) :
    kkm_kontext_state × List Nat :=
  if s.guest_area_page ≠ none then (⟨none, 0⟩, [s.guest_area]) else (s, [])

/-- Shallow embedding of `kkm_kontext_init`: one allocation of the
guest-area pages; on failure the state is rolled back through
`kkm_kontext_cleanup`.  (On success the C function additionally records
physical addresses, initializes the redzones and stores the guest area's
self-describing back-pointers — infallible writes that do not affect
the error path.)  Result: status, final state, ids allocated, ids
freed. -/
def kkm_kontext_init (s0 : kkm_kontext_state) (a : Option Nat) :
    Int × kkm_kontext_state × List Nat × List Nat :=
  match a with
  | none =>
    let c := kkm_kontext_cleanup s0
    (-ENOMEM, c.1, [], c.2)
  | some p =>
    (0, { s0 with guest_area_page := some p, guest_area := p }, [p], [])

/-- The zero-initialized `struct kkm` a kontainer starts from. -/
def freshKontainer : kkm_kontainer_state := ⟨none, 0, none, 0, none, 0⟩

/-- The zero-initialized `struct kkm_kontext` a kontext starts from. -/
def freshKontext : kkm_kontext_state := ⟨none, 0⟩

/-- C9: when `kkm_kontainer_init` or `kkm_kontext_init` fails because a
page allocation failed, every page allocated earlier in that call has
been freed and all page-pointer and address fields are back to
NULL/0 — the state equals the fresh zero state. -/
theorem c9_init_failure_rollback (a1 a2 a3 a : Option Nat) :
    ((kkm_kontainer_init freshKontainer a1 a2 a3).1 ≠ 0 →
      (kkm_kontainer_init freshKontainer a1 a2 a3).2.1 = freshKontainer ∧
      (kkm_kontainer_init freshKontainer a1 a2 a3).2.2.2 =
        (kkm_kontainer_init freshKontainer a1 a2 a3).2.2.1) ∧
    ((kkm_kontext_init freshKontext a).1 ≠ 0 →
      (kkm_kontext_init freshKontext a).2.1 = freshKontext ∧
      (kkm_kontext_init freshKontext a).2.2.2 =
        (kkm_kontext_init freshKontext a).2.2.1) := by
  constructor
  · intro hret
    cases a1 with
    | none => exact ⟨rfl, rfl⟩
    | some p1 =>
      cases a2 with
      | none =>
        refine ⟨?_, ?_⟩ <;>
          simp [kkm_kontainer_init, kkm_kontainer_cleanup, freshKontainer]
      | some p2 =>
        cases a3 with
        | none =>
          refine ⟨?_, ?_⟩ <;>
            simp [kkm_kontainer_init, kkm_kontainer_cleanup, freshKontainer]
        | some p3 =>
          exact absurd rfl hret
  · intro hret
    cases a with
    | none => exact ⟨rfl, rfl⟩
    | some p => exact absurd rfl hret

/-- Witness for C9: the second kontainer allocation and the kontext
allocation fail. -/
theorem c9_init_failure_rollback_witness :
    ((kkm_kontainer_init freshKontainer (some 1) none none).1 ≠ 0 →
      (kkm_kontainer_init freshKontainer (some 1) none none).2.1 =
        freshKontainer ∧
      (kkm_kontainer_init freshKontainer (some 1) none none).2.2.2 =
        (kkm_kontainer_init freshKontainer (some 1) none none).2.2.1) ∧
    ((kkm_kontext_init freshKontext none).1 ≠ 0 →
      (kkm_kontext_init freshKontext none).2.1 = freshKontext ∧
      (kkm_kontext_init freshKontext none).2.2.2 =
        (kkm_kontext_init freshKontext none).2.2.1) :=
  c9_init_failure_rollback (some 1) none none none

/-! ## Guest IDT gate construction (`kkm_idt_descr_init`, `kkm_idt.c`) -/

/-- x86 interrupt-gate descriptor type. -/
def GATE_INTERRUPT : Nat := 0xE

/-- Linux x86-64 kernel code-segment selector. -/
def __KERNEL_CS : Nat := 0x10

/-- Number of interrupt vectors. -/
def NR_VECTORS : Nat := 256

/-- x86 vector number of the breakpoint trap (`X86_TRAP_BP`). -/
def X86_TRAP_BP : Nat := 3

/-- x86 vector number of the overflow trap (`X86_TRAP_OF`). -/
def X86_TRAP_OF : Nat := 4

/-- One `struct gate_struct` as filled by the initialization loop. -/
structure gate_struct where
  offset_low : Nat
  segment : Nat
  ist : Nat
  zero : Nat
  type : Nat
  dpl : Nat
  p : Nat
  offset_middle : Nat
  offset_high : Nat
  reserved : Nat
deriving DecidableEq, Repr

/-- The per-vector entry address computed by `kkm_idt_descr_init`:
`KKM_IDT_CODE_START_VA + intr_function_pointers[i] -
intr_function_pointers[0]` in `uint64_t` arithmetic.  The code-start
virtual address and the table of stub addresses come from the external
MMU collaborator and the trampoline region, so they are parameters. -/
def kkm_idt_intr_entry_addr (code_start_va : Nat) (fp : Nat → Nat)
    (i : Nat) : Nat :=
  (code_start_va + fp i + (U64 - fp 0 % U64)) % U64

/-- Shallow embedding of the body of the gate-initialization loop of
`kkm_idt_descr_init` (vector `i`): a present interrupt gate on the
kernel code segment, descriptor privilege level 0 overwritten with 3
for the breakpoint and overflow vectors, and the entry address split
into the three offset fields. -/
def kkm_idt_descr_init_gate (code_start_va : Nat) (fp : Nat → Nat)
    (i : Nat) : gate_struct :=
  { offset_low := kkm_idt_intr_entry_addr code_start_va fp i &&& 0xFFFF
    segment := __KERNEL_CS
    ist := 0
    zero := 0
    type := GATE_INTERRUPT
    dpl := if i = X86_TRAP_BP ∨ i = X86_TRAP_OF then 3 else 0
    p := 1
    offset_middle :=
      (kkm_idt_intr_entry_addr code_start_va fp i >>> 16) &&& 0xFFFF
    offset_high :=
      (kkm_idt_intr_entry_addr code_start_va fp i >>> 32) &&& 0xFFFFFFFF
    reserved := 0 }

/-- C10: every one of the 256 guest IDT entries is a present
(`p = 1`) interrupt gate (`type = GATE_INTERRUPT`) on the kernel code
segment with descriptor privilege level 0, except the breakpoint (3)
and overflow (4) vectors, which get descriptor privilege level 3. -/
theorem c10_idt_gate_privileges (code_start_va : Nat) (fp : Nat → Nat)
    (i : Nat) (hi : i < NR_VECTORS) :
    (kkm_idt_descr_init_gate code_start_va fp i).p = 1 ∧
    (kkm_idt_descr_init_gate code_start_va fp i).type = GATE_INTERRUPT ∧
    (kkm_idt_descr_init_gate code_start_va fp i).segment = __KERNEL_CS ∧
    (i ≠ X86_TRAP_BP → i ≠ X86_TRAP_OF →
      (kkm_idt_descr_init_gate code_start_va fp i).dpl = 0) ∧
    ((i = X86_TRAP_BP ∨ i = X86_TRAP_OF) →
      (kkm_idt_descr_init_gate code_start_va fp i).dpl = 3) := by
  refine ⟨rfl, rfl, rfl, fun hbp hof => ?_, fun h => ?_⟩
  · simp [kkm_idt_descr_init_gate, hbp, hof]
  · simp [kkm_idt_descr_init_gate, h]

/-- Witness for C10 at vectors 5 (a dpl-0 vector) — the hypothesis
`5 < NR_VECTORS` and the two disequalities are discharged concretely. -/
theorem c10_idt_gate_privileges_witness :
    (kkm_idt_descr_init_gate 0 (fun _ => 0) 5).p = 1 ∧
    (kkm_idt_descr_init_gate 0 (fun _ => 0) 5).type = GATE_INTERRUPT ∧
    (kkm_idt_descr_init_gate 0 (fun _ => 0) 5).segment = __KERNEL_CS ∧
    (kkm_idt_descr_init_gate 0 (fun _ => 0) 5).dpl = 0 :=
  have h := c10_idt_gate_privileges 0 (fun _ => 0) 5 (by decide)
  ⟨h.1, h.2.1, h.2.2.1, h.2.2.2.1 (by decide) (by decide)⟩
